import Mathlib

/-!
Shallow embedding of `lattice.py` (class `Lattice`): a continuous-time
kinetic Monte Carlo simulation of a transcription factor (TF) searching a
1-D lattice while RNA polymerases (RNAPs) load, traverse and unload.

Python floats are modelled by `ℚ`; the numpy integer array `self.lattice`
by `List ℤ`; `None` by `Option`. Randomness (the uniform draw, the
exponential waiting-time sample, and the choice among candidate attachment
sites) is passed in explicitly as data, so every operation is a pure,
executable function. Python exceptions become `Except Err`.
-/

namespace Statpyf

/-- The runtime failures the Python code can raise, one constructor per
distinct raise site / builtin exception kind. -/
inductive Err where
  /-- `raise Exception("The lattice cannot do anything")` in `collect_rates`. -/
  | stall : Err
  /-- `raise Exception('No even was chosen')` in `execute_event`. -/
  | noEventChosen : Err
  /-- `raise Exception(f'... is not a valid event')` in `execute_event`. -/
  | invalidEvent : Err
  /-- `raise Exception(f"... is not a valid particle")` in `place_particle`. -/
  | invalidParticle : Err
  /-- `raise Exception(f"... is outside of the lattice")` in `place_particle`. -/
  | outsideLattice : Err
  /-- `raise Exception('There cannot be more than one TF')` in `place_particle`. -/
  | secondTF : Err
  /-- numpy `IndexError` from indexing the lattice array out of range. -/
  | indexError : Err
  /-- Python `TypeError`, e.g. subscripting a bound method
      (`self.rnap_positions.pop[rnap_index]`) or arithmetic on `None`. -/
  | typeError : Err
  /-- numpy `ValueError` from `prng.choice` on an empty candidate array. -/
  | valueError : Err
  deriving DecidableEq, Repr

/-- The payload-carrying event tag: Python stores a `"type"` string plus
extra keys (`rnap_pos`, `rnap_index`, `possible_sites`); here the extra
keys live on the constructor for the event kinds that carry them. -/
inductive EType where
  | rnap_attach : EType
  | rnap_move_right (rnap_pos : ℤ) (rnap_index : ℕ) : EType
  | rnap_move_left (rnap_pos : ℤ) (rnap_index : ℕ) : EType
  | rnap_detach (rnap_pos : ℤ) (rnap_index : ℕ) : EType
  | tf_attach (possible_sites : List ℕ) : EType
  | tf_left : EType
  | tf_right : EType
  | tf_detach : EType
  deriving DecidableEq, Repr

/-- One entry of `self.events`: the Python dict `{"type": ..., "rate": ...}`.
The `cum_rate` key is only written by the cumulative pass at the end of
`collect_rates`; before that pass it is absent in Python, modelled here as
the placeholder `0`. -/
structure Event where
  type : EType
  rate : ℚ
  cum_rate : ℚ := 0
  deriving DecidableEq, Repr

/-- The full instance state of the Python `Lattice` class: configuration
fields (set in `__init__`, never mutated) plus the mutable simulation
state (re-initialised by `reset`). The three log lists that `lattice.py`
initialises but never touches again (`tf_detach_points`,
`tf_attach_points`, `tf_block_points`) are omitted. -/
structure Lattice where
  lattice_length : ℕ
  target_site : ℤ
  rnap_attach_rate : ℚ
  rnap_move_rate : ℚ
  rnap_detach_rate : ℚ
  tf_attach_rate : ℚ
  tf_detach_rate : ℚ
  tf_move_rate : ℚ
  logging : Bool
  step_limit : ℕ
  lattice : List ℤ
  lattice_age : ℚ
  step_count : ℕ
  tf_position : Option ℤ
  rnap_positions : List ℤ
  events : List Event
  lattice_history : List (ℚ × List ℤ)
  tf_path : List (ℚ × Option ℤ)
  deriving DecidableEq, Repr

/-- numpy integer indexing: a negative index wraps once from the end,
anything else out of `[-n, n)` raises `IndexError`. -/
def npIdx (n : ℕ) (i : ℤ) : Option ℕ :=
  if 0 ≤ i ∧ i < (n : ℤ) then some i.toNat
  else if -(n : ℤ) ≤ i ∧ i < 0 then some (i + n).toNat
  else none

/-- Read `self.lattice[i]` with numpy semantics. -/
def npGet (l : List ℤ) (i : ℤ) : Except Err ℤ :=
  match npIdx l.length i with
  | some k => .ok (l.getD k 0)
  | none => .error .indexError

/-- Write `self.lattice[i] = v` with numpy semantics. -/
def npSet (l : List ℤ) (i : ℤ) (v : ℤ) : Except Err (List ℤ) :=
  match npIdx l.length i with
  | some k => .ok (l.set k v)
  | none => .error .indexError

/-- Checked read of a Python list at a nonnegative index
(`self.rnap_positions[k]`). -/
def pyGet (xs : List ℤ) (k : ℕ) : Except Err ℤ :=
  if h : k < xs.length then .ok (xs.get ⟨k, h⟩) else .error .indexError

/-- Checked write of a Python list at a nonnegative index
(`self.rnap_positions[k] = v`). -/
def pySet (xs : List ℤ) (k : ℕ) (v : ℤ) : Except Err (List ℤ) :=
  if k < xs.length then .ok (xs.set k v) else .error .indexError

/-- Python `self.rnap_positions.pop(k)`. -/
def pyPop (xs : List ℤ) (k : ℕ) : Except Err (List ℤ) :=
  if k < xs.length then .ok (xs.eraseIdx k) else .error .indexError

/-- Python `Lattice.reset`: remove all RNAP and TF from the lattice and reset its
age, step count, trackers, events and logs. The lattice array becomes
`np.zeros(self.lattice_length)`. -/
def Lattice.reset (l : Lattice) : Lattice :=
  { l with
    lattice := List.replicate l.lattice_length 0
    lattice_age := 0
    step_count := 0
    tf_position := none
    rnap_positions := []
    events := []
    lattice_history := []
    tf_path := [] }

/-- Python `Lattice.__init__`: store the configuration, then `reset`. A `none`
target site defaults to `lattice_length // 2`. -/
def mkLattice (lattice_length : ℕ := 100) (target_site : Option ℤ := none)
    (rnap_attach_rate : ℚ := 1/5) (rnap_move_rate : ℚ := 1)
    (rnap_detach_rate : ℚ := 1) (tf_attach_rate : ℚ := 1/100)
    (tf_detach_rate : ℚ := 1/200) (tf_move_rate : ℚ := 1)
    (logging : Bool := false) (step_limit : ℕ := 1000000) : Lattice :=
  Lattice.reset
    { lattice_length := lattice_length
      target_site := target_site.getD (lattice_length / 2)
      rnap_attach_rate := rnap_attach_rate
      rnap_move_rate := rnap_move_rate
      rnap_detach_rate := rnap_detach_rate
      tf_attach_rate := tf_attach_rate
      tf_detach_rate := tf_detach_rate
      tf_move_rate := tf_move_rate
      logging := logging
      step_limit := step_limit
      lattice := []
      lattice_age := 0
      step_count := 0
      tf_position := none
      rnap_positions := []
      events := []
      lattice_history := []
      tf_path := [] }

/-- Python `Lattice.site_empty`: an out-of-bounds site is reported occupied
(`False`), otherwise the array cell is compared with `0`. Total over all
integers — the bounds guard runs before the array access. -/
def Lattice.site_empty (l : Lattice) (site_number : ℤ) : Bool :=
  if site_number < 0 ∨ site_number ≥ (l.lattice_length : ℤ) then false
  else l.lattice.getD site_number.toNat 0 == 0

/-- Python `Lattice.on_target`: `self.tf_position == self.target_site`; in Python
`None == int` is `False`. -/
def Lattice.on_target (l : Lattice) : Bool :=
  match l.tf_position with
  | some p => p == l.target_site
  | none => false

/-- The RNAP part of the enumeration loop in `collect_rates`
(`for rnap_index, position in enumerate(self.rnap_positions)`): a
move-right event if the right neighbour is empty, a move-left event if the
left neighbour is empty, and a detach event if `position + 1` is past the
end of the array. -/
def rnapEvents (l : Lattice) : ℕ → List ℤ → List Event
  | _, [] => []
  | rnap_index, position :: rest =>
    ((if l.site_empty (position + 1) then
        [{ type := .rnap_move_right position rnap_index, rate := l.rnap_move_rate }]
      else []) ++
     (if l.site_empty (position - 1) then
        [{ type := .rnap_move_left position rnap_index, rate := l.rnap_move_rate }]
      else []) ++
     (if position + 1 ≥ (l.lattice.length : ℤ) then
        [{ type := .rnap_detach position rnap_index, rate := l.rnap_detach_rate }]
      else []))
    ++ rnapEvents l (rnap_index + 1) rest

/-- Python `np.where(self.lattice == 0)[0]`: the ascending list of indices of
empty cells. -/
def emptySites (l : Lattice) : List ℕ :=
  (List.range l.lattice.length).filter (fun k => l.lattice.getD k 0 == 0)

/-- The TF part of the enumeration in `collect_rates`: an attach event
over the currently empty sites when the TF is absent (and some site is
empty), otherwise left / right moves guarded by `site_empty` and an
unconditional detach event. -/
def tfEvents (l : Lattice) : List Event :=
  match l.tf_position with
  | none =>
    if (emptySites l).length > 0 then
      [{ type := .tf_attach (emptySites l), rate := l.tf_attach_rate }]
    else []
  | some s =>
    (if l.site_empty (s - 1) then [{ type := .tf_left, rate := l.tf_move_rate }] else []) ++
    (if l.site_empty (s + 1) then [{ type := .tf_right, rate := l.tf_move_rate }] else []) ++
    [{ type := .tf_detach, rate := l.tf_detach_rate }]

/-- The full event list built by `collect_rates`, in enumeration order:
RNAP attachment at site 0, then the per-RNAP loop, then the TF events. -/
def collectEvents (l : Lattice) : List Event :=
  (if l.site_empty 0 then [{ type := .rnap_attach, rate := l.rnap_attach_rate }] else []) ++
  rnapEvents l 0 l.rnap_positions ++ tfEvents l

/-- The cumulative pass at the end of `collect_rates`:
`event["cum_rate"] = event["rate"] + prev_cumsum` followed by
`prev_cumsum += event["cum_rate"]` (the accumulator absorbs the whole
cumulative value, not just the rate). -/
def assignCum (prev_cumsum : ℚ) : List Event → List Event
  | [] => []
  | e :: rest =>
    { e with cum_rate := e.rate + prev_cumsum } ::
      assignCum (prev_cumsum + (e.rate + prev_cumsum)) rest

/-- Python `Lattice.collect_rates`: build the event list, sum the rates, raise if
the total is zero, otherwise store the cumulatively annotated events in
`self.events` and return the total. -/
def Lattice.collect_rates (l : Lattice) : Except Err (ℚ × Lattice) :=
  let evs := collectEvents l
  let total_rate := (evs.map Event.rate).sum
  if total_rate = 0 then .error .stall
  else .ok (total_rate, { l with events := assignCum 0 evs })

/-- The selection scan in `execute_event`: the first enumerated event whose
`cum_rate` exceeds the draw (`random_number < event['cum_rate']`); `none`
reproduces the `chosen_event is None` raise. -/
def chooseEvent (events : List Event) (random_number : ℚ) : Option Event :=
  events.find? (fun e => random_number < e.cum_rate)

/-- Python `Lattice.execute_event`: draw `random_number = uniform() * total_rate`
(the realised uniform sample `u ∈ [0,1)` is passed in), linearly scan
`self.events` for the chosen event, then apply its transition. `choice`
is the realised index drawn by `prng.choice` for a TF attachment. The
TF-move/detach branches subtract from / index with `self.tf_position`,
which is a `TypeError` in Python when it is `None`; those paths are
unreachable from `simulate_step`, which rebuilds `self.events` first. -/
def Lattice.execute_event (l : Lattice) (total_rate : ℚ) (u : ℚ) (choice : ℕ) :
    Except Err Lattice :=
  let random_number := u * total_rate
  match chooseEvent l.events random_number with
  | none => .error .noEventChosen
  | some event =>
    match event.type with
    | .rnap_attach =>
      match npSet l.lattice 0 1 with
      | .error e => .error e
      | .ok arr => .ok { l with rnap_positions := l.rnap_positions ++ [0], lattice := arr }
    | .rnap_move_left rnap_pos rnap_index =>
      match pyGet l.rnap_positions rnap_index with
      | .error e => .error e
      | .ok old =>
        match pySet l.rnap_positions rnap_index (old - 1) with
        | .error e => .error e
        | .ok rps =>
          match npSet l.lattice rnap_pos 0 with
          | .error e => .error e
          | .ok arr1 =>
            match npSet arr1 (rnap_pos - 1) 1 with
            | .error e => .error e
            | .ok arr2 => .ok { l with rnap_positions := rps, lattice := arr2 }
    | .rnap_move_right rnap_pos rnap_index =>
      match pyGet l.rnap_positions rnap_index with
      | .error e => .error e
      | .ok old =>
        match pySet l.rnap_positions rnap_index (old + 1) with
        | .error e => .error e
        | .ok rps =>
          match npSet l.lattice rnap_pos 0 with
          | .error e => .error e
          | .ok arr1 =>
            match npSet arr1 (rnap_pos + 1) 1 with
            | .error e => .error e
            | .ok arr2 => .ok { l with rnap_positions := rps, lattice := arr2 }
    | .rnap_detach rnap_pos rnap_index =>
      match pyPop l.rnap_positions rnap_index with
      | .error e => .error e
      | .ok rps =>
        match npSet l.lattice rnap_pos 0 with
        | .error e => .error e
        | .ok arr => .ok { l with rnap_positions := rps, lattice := arr }
    | .tf_attach possible_sites =>
      if possible_sites.length = 0 then .error .valueError
      else
        let site : ℤ := possible_sites.getD (choice % possible_sites.length) 0
        match npSet l.lattice site 2 with
        | .error e => .error e
        | .ok arr => .ok { l with tf_position := some site, lattice := arr }
    | .tf_left =>
      match l.tf_position with
      | none => .error .typeError
      | some s =>
        match npSet l.lattice s 0 with
        | .error e => .error e
        | .ok arr1 =>
          match npSet arr1 (s - 1) 2 with
          | .error e => .error e
          | .ok arr2 => .ok { l with tf_position := some (s - 1), lattice := arr2 }
    | .tf_right =>
      match l.tf_position with
      | none => .error .typeError
      | some s =>
        match npSet l.lattice s 0 with
        | .error e => .error e
        | .ok arr1 =>
          match npSet arr1 (s + 1) 2 with
          | .error e => .error e
          | .ok arr2 => .ok { l with tf_position := some (s + 1), lattice := arr2 }
    | .tf_detach =>
      match l.tf_position with
      | none => .error .typeError
      | some s =>
        match npSet l.lattice s 0 with
        | .error e => .error e
        | .ok arr => .ok { l with tf_position := none, lattice := arr }

/-- Python `Lattice.simulate_step`: increment the step counter, rebuild the rate
catalog, advance the age by the exponential waiting-time sample `wait`
(the realised value of `prng.exponential(scale=1/total_rate)`), execute
one event, and append to the logs when logging is on. The Python method
returns `self.on_target()`; here the updated state is returned and
`on_target` is read off it by the callers. -/
def Lattice.simulate_step (l : Lattice) (u wait : ℚ) (choice : ℕ) :
    Except Err Lattice :=
  let l1 := { l with step_count := l.step_count + 1 }
  match l1.collect_rates with
  | .error e => .error e
  | .ok (total_rate, l2) =>
    let l3 := { l2 with lattice_age := l2.lattice_age + wait }
    match l3.execute_event total_rate u choice with
    | .error e => .error e
    | .ok l4 =>
      if l4.logging then
        .ok { l4 with
              tf_path := l4.tf_path ++ [(l4.lattice_age, l4.tf_position)]
              lattice_history := l4.lattice_history ++ [(l4.lattice_age, l4.lattice)] }
      else .ok l4

/-- One random draw per step: the uniform sample, the exponential
waiting-time sample, and the candidate-choice index. -/
structure Draw where
  u : ℚ
  wait : ℚ
  choice : ℕ

/-- Lemma: `collect_rates` only writes `self.events`: step counter, step limit,
age and trackers are untouched. -/
theorem collect_rates_meta {l l' : Lattice} {t : ℚ}
    (h : l.collect_rates = .ok (t, l')) :
    l'.step_count = l.step_count ∧ l'.step_limit = l.step_limit ∧
      l'.lattice_age = l.lattice_age ∧ l'.logging = l.logging := by
  unfold Lattice.collect_rates at h
  dsimp only at h
  split at h
  · exact Except.noConfusion h
  · rw [Except.ok.injEq, Prod.mk.injEq] at h
    rw [← h.2]
    exact ⟨rfl, rfl, rfl, rfl⟩

/-- Lemma: `execute_event` never touches the step counter, the step limit, the
age or the logging flag. -/
theorem execute_event_meta {l l' : Lattice} {t u : ℚ} {c : ℕ}
    (h : l.execute_event t u c = .ok l') :
    l'.step_count = l.step_count ∧ l'.step_limit = l.step_limit ∧
      l'.lattice_age = l.lattice_age ∧ l'.logging = l.logging := by
  unfold Lattice.execute_event at h
  dsimp only at h
  split at h
  · exact Except.noConfusion h
  · split at h <;>
      (repeat' split at h) <;>
      first
        | exact Except.noConfusion h
        | (rw [Except.ok.injEq] at h; rw [← h]; exact ⟨rfl, rfl, rfl, rfl⟩)

/-- Lemma: `simulate_step` preserves the step limit, increments the step counter
by exactly one, and advances the age by exactly the waiting-time sample. -/
theorem simulate_step_counts {l l' : Lattice} {u wait : ℚ} {choice : ℕ}
    (h : l.simulate_step u wait choice = .ok l') :
    l'.step_count = l.step_count + 1 ∧ l'.step_limit = l.step_limit ∧
      l'.lattice_age = l.lattice_age + wait := by
  unfold Lattice.simulate_step at h
  dsimp only at h
  split at h
  · exact Except.noConfusion h
  next total l2 heq =>
    obtain ⟨hc2, hl2, ha2, hg2⟩ := collect_rates_meta heq
    split at h
    · exact Except.noConfusion h
    next l4 heq2 =>
      obtain ⟨hc4, hl4, ha4, hg4⟩ := execute_event_meta heq2
      split at h <;>
        · rw [Except.ok.injEq] at h
          rw [← h]
          simp_all

/-- The `while not self.simulate_step():` loop of `simulate_to_target`:
step; if the TF is now on target, return the age; otherwise if the step
count exceeds the step limit, warn and return the `None` sentinel;
otherwise loop. The draws for step number `k` are `stream k`. The
returned pair carries the Python return value and the final instance
state. Terminates because each iteration increments `step_count` and the
loop exits once it passes `step_limit`. -/
def simLoop (stream : ℕ → Draw) (l : Lattice) : Except Err (Option ℚ × Lattice) :=
  match h : l.simulate_step (stream l.step_count).u (stream l.step_count).wait
      (stream l.step_count).choice with
  | .error e => .error e
  | .ok l' =>
    if l'.on_target then .ok (some l'.lattice_age, l')
    else if l'.step_count > l'.step_limit then .ok (none, l')
    else simLoop stream l'
termination_by l.step_limit + 1 - l.step_count
decreasing_by
  have := simulate_step_counts h
  omega

/-- Python `Lattice.simulate_to_target`: if the TF is already on the target,
return the current age without stepping; otherwise run the step loop. -/
def Lattice.simulate_to_target (l : Lattice) (stream : ℕ → Draw) :
    Except Err (Option ℚ × Lattice) :=
  if l.on_target then .ok (some l.lattice_age, l)
  else simLoop stream l

/-- Python `Lattice.place_particle`: validate the particle code and the position
(note the inclusive upper bound `position <= len(self.lattice)`), clear
the site and its tracker — the RNAP-clearing branch executes
`self.rnap_positions.pop[rnap_index]`, which subscripts the bound `pop`
method and raises `TypeError` as soon as a tracked RNAP matches the
position — then place the particle and update its tracker. -/
def Lattice.place_particle (l : Lattice) (particle : ℤ) (position : ℤ) :
    Except Err Lattice :=
  if ¬ (0 ≤ particle ∧ particle ≤ 2) then .error .invalidParticle
  else if ¬ (0 ≤ position ∧ position ≤ (l.lattice.length : ℤ)) then
    .error .outsideLattice
  else
    match npGet l.lattice position with
    | .error e => .error e
    | .ok cell =>
      match
        (if cell = 1 then .ok { l with tf_position := none }
         else if cell = 2 then
           -- `for rnap_index, rnap_positon in enumerate(self.rnap_positions):
           --    if rnap_positon == position: self.rnap_positions.pop[rnap_index]`
           -- the first matching iteration raises TypeError.
           if l.rnap_positions.any (fun p => p == position) then
             (.error .typeError : Except Err Lattice)
           else .ok l
         else .ok l) with
      | .error e => .error e
      | .ok l1 =>
        match npSet l1.lattice position 0 with
        | .error e => .error e
        | .ok arr0 =>
          let l2 := { l1 with lattice := arr0 }
          match
            (if particle = 1 then
               if l2.tf_position.isSome then (.error .secondTF : Except Err Lattice)
               else .ok { l2 with tf_position := some position }
             else if particle = 2 then
               .ok { l2 with rnap_positions := l2.rnap_positions ++ [position] }
             else .ok l2) with
          | .error e => .error e
          | .ok l3 =>
            match npSet l3.lattice position particle with
            | .error e => .error e
            | .ok arr => .ok { l3 with lattice := arr }

/-- Python `Lattice.remove_particle`: `self.place_particle(0, position)`. -/
def Lattice.remove_particle (l : Lattice) (position : ℤ) : Except Err Lattice :=
  l.place_particle 0 position

/-- A whole sequence of `simulate_step` calls, stopping at the first
raised exception. -/
def run_steps (l : Lattice) : List Draw → Except Err Lattice
  | [] => .ok l
  | d :: ds =>
    match l.simulate_step d.u d.wait d.choice with
    | .error e => .error e
    | .ok l' => run_steps l' ds

/-- The boundaries the spec prescribes ("event *i* owns the half-open
interval `(prev_cumsum, prev_cumsum + rate_i]`"): the prefix sums of the
rates in enumeration order, so that the last boundary is the total rate.
Written from the spec's words, to compare with the code's `assignCum`. -/
def specCumBoundaries (prev_cumsum : ℚ) : List Event → List ℚ
  | [] => []
  | e :: rest => (prev_cumsum + e.rate) :: specCumBoundaries (prev_cumsum + e.rate) rest

/-- The occupancy-consistency property of the spec, for a given injective
assignment of array codes to the two particle kinds (`searcher_code` and
`rnap_code` are `1` and `2` in one of the two orders): every site's code
is the empty code with no tracker referencing the site, or the searcher
code exactly at the Searcher's tracked position, or the translocase code
exactly at a tracked Translocase position; and no two trackers reference
the same site. -/
def occupancyConsistent (searcher_code rnap_code : ℤ) (l : Lattice) : Bool :=
  ((List.range l.lattice.length).all fun i =>
    let c := l.lattice.getD i 0
    let isTF := l.tf_position == some (i : ℤ)
    let isRNAP := decide ((i : ℤ) ∈ l.rnap_positions)
    ((c == 0) && !isTF && !isRNAP) ||
    ((c == searcher_code) && isTF && !isRNAP) ||
    ((c == rnap_code) && !isTF && isRNAP)) &&
  (match l.tf_position with
   | some p => decide (p ∉ l.rnap_positions)
   | none => true) &&
  decide l.rnap_positions.Nodup

/-- A draw stream that always returns zero samples (uniform draw 0,
waiting time 0, candidate index 0). -/
def zeroDraws : ℕ → Draw := fun _ => ⟨0, 0, 0⟩

/-- Claim C1's concrete state, before placement: length 3, target 2,
RNAP-attach rate 1, TF-move rate 1, TF-detach rate 1, TF-attach rate 0. -/
def c1_base : Lattice := mkLattice 3 (some 2) 1 1 1 0 1 1 false 10

/-- Claim C1's concrete state: the TF placed at site 1 of `c1_base` (via
`place_particle(1, 1)`, which writes code 1). Four events get enumerated:
RNAP attach (rate 1), TF left, TF right, TF detach (rates 1 each). -/
def c1_state : Lattice := { c1_base with lattice := [0, 1, 0], tf_position := some 1 }

/-- Claim C2's concrete configuration: length 2, RNAP-attach rate 0,
RNAP-move and RNAP-detach rate 1, all TF rates 0. -/
def c2_base : Lattice := mkLattice 2 (some 0) 0 1 1 0 0 0 false 10

/-- Claim C2's concrete state: one tracked RNAP at site 1 with site 0
empty (placed via `place_particle(2, 1)`, which writes code 2). -/
def c2_state : Lattice := { c2_base with lattice := [0, 2], rnap_positions := [1] }

/-- Claim C3's concrete configuration: length 2, TF-move and TF-detach
rate 1, TF-attach rate 0, RNAP-attach rate 1. -/
def c3_base : Lattice := mkLattice 2 (some 0) 1 1 1 0 1 1 false 10

/-- Claim C3's first reachable state: `reset` then `place_particle(1, 0)`
— the Searcher tracked at site 0, the array holding code **1** there. -/
def c3_placed : Lattice := { c3_base with lattice := [1, 0], tf_position := some 0 }

/-- Claim C3's second reachable state: one `simulate_step` from
`c3_placed` with uniform draw 0, which fires the TF's right move — the
Searcher tracked at site 1, the array holding code **2** there. -/
def c3_stepped : Lattice :=
  { c3_base with
    lattice := [0, 2]
    tf_position := some 1
    step_count := 1
    events := [{ type := .tf_right, rate := 1, cum_rate := 1 },
               { type := .tf_detach, rate := 1, cum_rate := 2 }] }

/-- Claim C4's concrete configuration (spec Scenario C): length 1, step
limit 1, RNAP-attach and RNAP-detach rate 1, all TF rates 0 — the TF
never attaches (its attach rate is 0), so the target is never reached. -/
def c4_lattice : Lattice := mkLattice 1 none 1 1 1 0 0 0 false 1

/-- The state `simulate_to_target` returns in claim C4's scenario: two
steps were taken (an RNAP attach then its detach), so the counter is 2. -/
def c4_final : Lattice :=
  { c4_lattice with
    lattice := [0]
    step_count := 2
    events := [{ type := .rnap_detach 0 0, rate := 1, cum_rate := 1 }] }

/-- Claim C5's concrete state: a freshly reset default lattice of
length 5. -/
def c5_lattice : Lattice := mkLattice 5 none

/-- A length-5 state with the Searcher placed at site 1 (code 1, as
`place_particle` writes it), used for the second-Searcher validation
conjunct of claim C5. -/
def c5_with_tf : Lattice :=
  { c5_lattice with lattice := [0, 1, 0, 0, 0], tf_position := some 1 }

/-- Claim C7's concrete configuration (spec Scenario B): length 5, target
site 4, default rates. -/
def c7_lattice : Lattice := mkLattice 5 (some 4)

/-- Claim C7's concrete state: the Searcher force-placed on the target
site 4 before any step. -/
def c7_placed : Lattice :=
  { c7_lattice with lattice := [0, 0, 0, 0, 1], tf_position := some 4 }

/-- Claim C9's concrete state: one RNAP placed at site 0 of a length-3
lattice via `place_particle(2, 0)` (which writes code 2). -/
def c9_state : Lattice :=
  { (mkLattice 3 none) with lattice := [2, 0, 0], rnap_positions := [0] }

/-- The catalog's cumulative annotation of claim C1's state, exactly as
`assignCum` computes it: boundaries 1, 2, 4, 8 for four rate-1 events. -/
def c1_events : List Event :=
  [{ type := .rnap_attach, rate := 1, cum_rate := 1 },
   { type := .tf_left, rate := 1, cum_rate := 2 },
   { type := .tf_right, rate := 1, cum_rate := 4 },
   { type := .tf_detach, rate := 1, cum_rate := 8 }]

/-- Non-dependent one-step unfolding of the `simulate_to_target` loop. -/
theorem simLoop_eq (stream : ℕ → Draw) (l : Lattice) : simLoop stream l =
    match l.simulate_step (stream l.step_count).u (stream l.step_count).wait
        (stream l.step_count).choice with
    | .error e => .error e
    | .ok l' =>
      if l'.on_target then .ok (some l'.lattice_age, l')
      else if l'.step_count > l'.step_limit then .ok (none, l')
      else simLoop stream l' := by
  rw [simLoop.eq_def]
  rcases h : l.simulate_step (stream l.step_count).u (stream l.step_count).wait
      (stream l.step_count).choice with e | l' <;> simp

/-- C7: if the Searcher already occupies the target site when
`simulate_to_target` is called, it returns the current elapsed time
immediately, performing no step and leaving the state unchanged. -/
theorem claim_C7_immediate_return (l : Lattice) (stream : ℕ → Draw)
    (h : l.on_target = true) :
    l.simulate_to_target stream = .ok (some l.lattice_age, l) := by
  unfold Lattice.simulate_to_target
  rw [if_pos h]

/-- Witness for C7, spec Scenario B: length 5, target site 4, Searcher
force-placed at site 4 before any step — `simulate_to_target` returns
elapsed time 0 with the step counter still 0. -/
theorem claim_C7_witness :
    c7_lattice.place_particle 1 4 = .ok c7_placed ∧
    c7_placed.simulate_to_target zeroDraws = .ok (some c7_placed.lattice_age, c7_placed) ∧
    c7_placed.lattice_age = 0 ∧ c7_placed.step_count = 0 :=
  ⟨by
     have h1 : (List.replicate 5 (0 : ℤ)).set (Int.toNat 4) 1 = [0, 0, 0, 0, 1] := by decide
     norm_num [c7_lattice, c7_placed, mkLattice, Lattice.reset, Lattice.place_particle,
       npGet, npSet, npIdx, Int.toNat_ofNat, h1],
   claim_C7_immediate_return c7_placed zeroDraws
     (by norm_num [c7_placed, c7_lattice, mkLattice, Lattice.reset, Lattice.on_target]),
   rfl, rfl⟩

/-- C5: the validation of `place_particle` accepts `site = N` (its bound
check is the inclusive `0 <= position <= len(self.lattice)`), and the
subsequent array read then raises `IndexError` — not the validation
error the claim promises. The other validation conditions of the claim do
hold: a site below 0 or above N and a non-particle code are rejected by
validation, and placing a second Searcher raises the validation error. -/
theorem claim_C5_site_N_not_validated :
    c5_lattice.lattice.length = 5 ∧
    c5_lattice.place_particle 0 5 = .error .indexError ∧
    Err.indexError ≠ Err.outsideLattice ∧
    c5_lattice.place_particle 0 (-1) = .error .outsideLattice ∧
    c5_lattice.place_particle 0 6 = .error .outsideLattice ∧
    c5_lattice.place_particle 3 0 = .error .invalidParticle ∧
    c5_lattice.place_particle (-1) 0 = .error .invalidParticle ∧
    c5_with_tf.place_particle 1 3 = .error .secondTF := by
  have h3 : Int.toNat 3 = 3 := rfl
  have h5 : Int.toNat 5 = 5 := rfl
  refine ⟨by decide, ?_, by decide, ?_, ?_, ?_, ?_, ?_⟩ <;>
    norm_num [c5_lattice, c5_with_tf, mkLattice, Lattice.reset, Lattice.place_particle,
      npGet, npSet, npIdx, h3, h5]

/-- C10: `site_empty` is total over all integers — it returns `false` for
every out-of-range index and otherwise reports whether the array holds 0
at that index. -/
theorem claim_C10_site_empty_total (l : Lattice) (i : ℤ) :
    (l.site_empty i = true ↔
      0 ≤ i ∧ i < (l.lattice_length : ℤ) ∧ l.lattice.getD i.toNat 0 = 0) ∧
    ((i < 0 ∨ (l.lattice_length : ℤ) ≤ i) → l.site_empty i = false) := by
  unfold Lattice.site_empty
  split
  next hc =>
    refine ⟨⟨fun h => absurd h (by simp), fun h => absurd hc ?_⟩, fun _ => rfl⟩
    push_neg
    exact ⟨h.1, h.2.1⟩
  next hc =>
    push_neg at hc
    refine ⟨?_, fun h => absurd h (by push_neg; exact ⟨hc.1, hc.2⟩)⟩
    rw [beq_iff_eq]
    exact ⟨fun h => ⟨hc.1, hc.2, h⟩, fun h => h.2.2⟩

/-- Witness for C10 at the concrete state `c3_placed` (length 2,
array `[1, 0]`): both out-of-range neighbours are reported occupied and
the in-range empty site 1 is reported empty. -/
theorem claim_C10_witness :
    c3_placed.site_empty (-1) = false ∧ c3_placed.site_empty 2 = false ∧
      c3_placed.site_empty 1 = true := by
  have h1 : Int.toNat 1 = 1 := rfl
  refine ⟨(claim_C10_site_empty_total c3_placed (-1)).2 (Or.inl (by norm_num)),
    (claim_C10_site_empty_total c3_placed 2).2 (Or.inr ?_),
    (claim_C10_site_empty_total c3_placed 1).1.mpr ⟨by norm_num, ?_, ?_⟩⟩ <;>
    norm_num [c3_placed, c3_base, mkLattice, Lattice.reset, h1]

/-- C9: whenever the array holds code 2 at a position that is also in the
RNAP position tracker, `remove_particle` (that is, `place_particle(0, ·)`)
raises `TypeError`: the clearing branch subscripts the bound method
(`self.rnap_positions.pop[rnap_index]`) instead of calling it. -/
theorem claim_C9_remove_code2_type_error (l : Lattice) (p : ℕ)
    (hlt : p < l.lattice.length) (hcell : l.lattice.getD p 0 = 2)
    (hmem : (p : ℤ) ∈ l.rnap_positions) :
    l.remove_particle p = .error .typeError := by
  unfold Lattice.remove_particle Lattice.place_particle
  rw [if_neg (by norm_num)]
  rw [if_neg (not_not.mpr ⟨Int.natCast_nonneg p, by exact_mod_cast hlt.le⟩)]
  have hget : npGet l.lattice (p : ℤ) = .ok 2 := by
    unfold npGet npIdx
    rw [if_pos ⟨by positivity, by exact_mod_cast hlt⟩]
    simpa using hcell
  rw [hget]
  have hany : l.rnap_positions.any (fun q => q == (p : ℤ)) = true :=
    List.any_eq_true.mpr ⟨(p : ℤ), hmem, by simp⟩
  simp [hany]

/-- Witness for C9: a length-3 lattice with one RNAP placed at site 0
(array `[2, 0, 0]`, tracker `[0]`) — removing it raises `TypeError`. -/
theorem claim_C9_witness :
    (0 < c9_state.lattice.length ∧ c9_state.lattice.getD 0 0 = 2 ∧
      ((0 : ℤ) ∈ c9_state.rnap_positions)) ∧
    c9_state.remove_particle 0 = .error .typeError :=
  ⟨⟨by norm_num [c9_state, mkLattice, Lattice.reset],
    by norm_num [c9_state, mkLattice, Lattice.reset],
    by norm_num [c9_state, mkLattice, Lattice.reset]⟩,
   claim_C9_remove_code2_type_error c9_state 0
     (by norm_num [c9_state, mkLattice, Lattice.reset])
     (by norm_num [c9_state, mkLattice, Lattice.reset])
     (by norm_num [c9_state, mkLattice, Lattice.reset])⟩

/-- One `simulate_step` from `c3_placed` with all-zero draws fires the
TF's right move, yielding `c3_stepped`. -/
theorem c3_step_eq : c3_placed.simulate_step 0 0 0 = .ok c3_stepped := by
  have h0 : Int.toNat 0 = 0 := rfl
  have h1 : Int.toNat 1 = 1 := rfl
  norm_num [c3_placed, c3_stepped, c3_base, mkLattice, Lattice.reset,
    Lattice.simulate_step, Lattice.collect_rates, collectEvents, rnapEvents, tfEvents,
    emptySites, assignCum, Lattice.execute_event, chooseEvent, Lattice.site_empty,
    Lattice.on_target, npSet, npGet, npIdx, h0, h1]

/-- C1: the cumulative pass accumulates `prev_cumsum += event["cum_rate"]`
instead of `prev_cumsum += event["rate"]`, so for claim C1's state — four
events of rate 1 each — the boundaries come out 1, 2, 4, 8 instead of the
prefix sums 1, 2, 3, 4 the spec prescribes, and the last boundary (8)
does not equal the returned total rate (4). -/
theorem claim_C1_boundaries_not_prefix_sums :
    c1_base.place_particle 1 1 = .ok c1_state ∧
    c1_state.collect_rates = .ok (4, { c1_state with events := c1_events }) ∧
    c1_events.map Event.cum_rate = [1, 2, 4, 8] ∧
    specCumBoundaries 0 (collectEvents c1_state) = [1, 2, 3, 4] ∧
    c1_events.map Event.cum_rate ≠ specCumBoundaries 0 (collectEvents c1_state) ∧
    (8 : ℚ) ≠ 4 := by
  have h0 : Int.toNat 0 = 0 := rfl
  have h1 : Int.toNat 1 = 1 := rfl
  have h2 : Int.toNat 2 = 2 := rfl
  have hrep : (List.replicate 3 (0 : ℤ)).set 1 1 = [0, 1, 0] := by decide
  have hrg : List.range 3 = [0, 1, 2] := rfl
  refine ⟨?_, ?_, ?_, ?_, ?_, by norm_num⟩ <;>
    norm_num [c1_base, c1_state, c1_events, mkLattice, Lattice.reset,
      Lattice.place_particle, Lattice.collect_rates, collectEvents, rnapEvents,
      tfEvents, emptySites, assignCum, specCumBoundaries, Lattice.site_empty,
      npSet, npGet, npIdx, h0, h1, h2, hrep, hrg]

/-- C2: for claim C2's state (one RNAP at site 1, site 0 empty) the
catalog also enumerates a `rnap_move_left` event — not only the +1 move
and the detach — and a step that fires it decreases the RNAP's tracked
position from 1 to 0. -/
theorem claim_C2_left_move_enumerated :
    c2_base.place_particle 2 1 = .ok c2_state ∧
    c2_state.rnap_positions = [1] ∧
    (collectEvents c2_state).map Event.type =
      [.rnap_attach, .rnap_move_left 1 0, .rnap_detach 1 0, .tf_attach [0]] ∧
    (c2_state.simulate_step 0 0 0).toOption.map Lattice.rnap_positions = some [0] := by
  have h0 : Int.toNat 0 = 0 := rfl
  have h1 : Int.toNat 1 = 1 := rfl
  have hrep : (List.replicate 2 (0 : ℤ)).set 1 2 = [0, 2] := by decide
  have hrg : List.range 2 = [0, 1] := rfl
  refine ⟨?_, rfl, ?_, ?_⟩ <;>
    norm_num [c2_base, c2_state, mkLattice, Lattice.reset, Lattice.place_particle,
      Lattice.simulate_step, Lattice.collect_rates, collectEvents, rnapEvents,
      tfEvents, emptySites, assignCum, Lattice.execute_event, chooseEvent,
      Lattice.site_empty, Lattice.on_target, npSet, npGet, npIdx, pyGet, pySet,
      Except.toOption, h0, h1, hrep, hrg]

/-- C3: the two halves of the code use opposite site encodings —
`place_particle` writes 1 for the Searcher and 2 for a Translocase, while
`execute_event` writes 2 for the Searcher and 1 for a Translocase — so
neither fixed assignment of codes makes every reachable state's array
match the trackers: the state reached by `reset; place_particle(1, 0)`
violates the (searcher = 2, translocase = 1) encoding, and one further
step (firing the Searcher's right move) violates (searcher = 1,
translocase = 2). -/
theorem claim_C3_no_single_encoding :
    c3_base.place_particle 1 0 = .ok c3_placed ∧
    c3_placed.simulate_step 0 0 0 = .ok c3_stepped ∧
    occupancyConsistent 2 1 c3_placed = false ∧
    occupancyConsistent 1 2 c3_stepped = false ∧
    occupancyConsistent 1 2 c3_placed = true ∧
    occupancyConsistent 2 1 c3_stepped = true := by
  have h0 : Int.toNat 0 = 0 := rfl
  have hrep : (List.replicate 2 (0 : ℤ)).set 0 1 = [1, 0] := by decide
  refine ⟨?_, c3_step_eq, by decide, by decide, by decide, by decide⟩
  norm_num [c3_base, c3_placed, mkLattice, Lattice.reset, Lattice.place_particle,
    npSet, npGet, npIdx, h0, hrep]

/-- The full run of claim C4's scenario: an RNAP attaches (step 1), the
TF is not on target and the counter (1) does not exceed the limit (1), so
the loop steps again; the RNAP detaches (step 2), the counter (2) now
exceeds the limit and the sentinel is returned. -/
theorem c4_run_eq : c4_lattice.simulate_to_target zeroDraws = .ok (none, c4_final) := by
  have h0 : Int.toNat 0 = 0 := rfl
  have hrg : List.range 1 = [0] := rfl
  rw [Lattice.simulate_to_target]
  rw [if_neg (by norm_num [c4_lattice, mkLattice, Lattice.reset, Lattice.on_target])]
  rw [simLoop_eq]
  norm_num [c4_lattice, zeroDraws, mkLattice, Lattice.reset, Lattice.simulate_step,
    Lattice.collect_rates, collectEvents, rnapEvents, tfEvents, emptySites, assignCum,
    Lattice.execute_event, chooseEvent, Lattice.site_empty, Lattice.on_target,
    npSet, npGet, npIdx, pyGet, pySet, pyPop, h0, hrg]
  rw [simLoop_eq]
  norm_num [c4_final, c4_lattice, zeroDraws, mkLattice, Lattice.reset,
    Lattice.simulate_step, Lattice.collect_rates, collectEvents, rnapEvents, tfEvents,
    emptySites, assignCum, Lattice.execute_event, chooseEvent, Lattice.site_empty,
    Lattice.on_target, npSet, npGet, npIdx, pyGet, pySet, pyPop, h0, hrg]

/-- C4, counterexample to the claim as stated: with the step ceiling set
to 1 and a configuration whose Searcher never reaches the target,
`simulate_to_target` does return the `None` sentinel without raising, but
the step counter is 2 at return, not 1. -/
theorem claim_C4_counterexample :
    (c4_lattice.simulate_to_target zeroDraws).toOption.map
        (fun r => (r.1, r.2.step_count)) = some (none, 2) ∧
    c4_lattice.step_limit = 1 ∧
    (c4_lattice.simulate_to_target zeroDraws).toOption.map
        (fun r => (r.1, r.2.step_count)) ≠ some (none, 1) := by
  rw [c4_run_eq]
  refine ⟨rfl, rfl, ?_⟩
  intro h
  simp [Except.toOption, c4_final, c4_lattice, mkLattice, Lattice.reset] at h

/-- On a sentinel return, the loop of `simulate_to_target` has stepped the
counter to exactly one past the limit (provided it started at or below
the limit). -/
theorem simLoop_sentinel_count (stream : ℕ → Draw) :
    ∀ (n : ℕ) (l res : Lattice), l.step_limit + 1 - l.step_count = n →
      l.step_count ≤ l.step_limit → simLoop stream l = .ok (none, res) →
      res.step_count = l.step_limit + 1 ∧ res.step_limit = l.step_limit := by
  intro n
  induction n using Nat.strong_induction_on with
  | _ n ih =>
    intro l res hn hle h
    rw [simLoop_eq] at h
    split at h
    · exact Except.noConfusion h
    next l' hs =>
      obtain ⟨hc, hlim, -⟩ := simulate_step_counts hs
      split at h
      · simp at h
      · split at h
        next hgt =>
          rw [Except.ok.injEq, Prod.mk.injEq] at h
          obtain ⟨-, hres⟩ := h
          subst hres
          omega
        next hgt =>
          have hrec := ih (l'.step_limit + 1 - l'.step_count) (by omega) l' res rfl
            (by omega) h
          omega

/-- C4, amended: when `simulate_to_target` returns the `None` sentinel
(an ordinary return value, not a raised exception) from a state whose
counter is within the limit, the final step counter equals
`step_limit + 1` — so 2, not 1, when the ceiling is 1 — and the counter
has strictly exceeded the limit, which is the condition under which the
sentinel is produced. -/
theorem claim_C4_sentinel_counter (l : Lattice) (stream : ℕ → Draw) (res : Lattice)
    (hcount : l.step_count ≤ l.step_limit)
    (h : l.simulate_to_target stream = .ok (none, res)) :
    res.step_count = l.step_limit + 1 ∧ res.step_limit < res.step_count := by
  rw [Lattice.simulate_to_target] at h
  split at h
  · simp at h
  · have := simLoop_sentinel_count stream (l.step_limit + 1 - l.step_count) l res rfl
      hcount h
    omega

/-- Witness for the amended C4 at the concrete Scenario-C configuration:
ceiling 1, final counter 2 = 1 + 1. -/
theorem claim_C4_witness :
    c4_lattice.step_count ≤ c4_lattice.step_limit ∧
      (c4_final.step_count = c4_lattice.step_limit + 1 ∧
        c4_final.step_limit < c4_final.step_count) :=
  ⟨by decide, claim_C4_sentinel_counter c4_lattice zeroDraws c4_final (by decide) c4_run_eq⟩

/-- Membership in a conditional singleton list forces equality with the
element. -/
theorem mem_if_singleton {c : Prop} [Decidable c] {ev e : Event}
    (h : e ∈ (if c then [ev] else [])) : e = ev := by
  split at h
  · simpa using h
  · simp at h

/-- Every event the per-RNAP loop emits carries the configured RNAP move
rate or the configured RNAP detach rate. -/
theorem rnapEvents_rate_cases (l : Lattice) :
    ∀ (i : ℕ) (ps : List ℤ) (e : Event), e ∈ rnapEvents l i ps →
      e.rate = l.rnap_move_rate ∨ e.rate = l.rnap_detach_rate := by
  intro i ps
  induction ps generalizing i with
  | nil => intro e he; simp [rnapEvents] at he
  | cons p rest ih =>
    intro e he
    rw [rnapEvents] at he
    rcases List.mem_append.mp he with h1 | h2
    · rcases List.mem_append.mp h1 with h3 | h4
      · rcases List.mem_append.mp h3 with h5 | h6
        · left; rw [mem_if_singleton h5]
        · left; rw [mem_if_singleton h6]
      · right; rw [mem_if_singleton h4]
    · exact ih (i + 1) e h2

/-- Every event the catalog emits carries one of the six configured
rates. -/
theorem collectEvents_rate_cases (l : Lattice) (e : Event)
    (he : e ∈ collectEvents l) :
    e.rate = l.rnap_attach_rate ∨ e.rate = l.rnap_move_rate ∨
      e.rate = l.rnap_detach_rate ∨ e.rate = l.tf_attach_rate ∨
      e.rate = l.tf_move_rate ∨ e.rate = l.tf_detach_rate := by
  rw [collectEvents] at he
  rcases List.mem_append.mp he with h1 | h2
  · rcases List.mem_append.mp h1 with h3 | h4
    · left; rw [mem_if_singleton h3]
    · rcases rnapEvents_rate_cases l 0 l.rnap_positions e h4 with h | h
      · right; left; exact h
      · right; right; left; exact h
  · rw [tfEvents] at h2
    split at h2
    · right; right; right; left
      rw [mem_if_singleton h2]
    · rcases List.mem_append.mp h2 with h3 | h4
      · rcases List.mem_append.mp h3 with h5 | h6
        · right; right; right; right; left; rw [mem_if_singleton h5]
        · right; right; right; right; left; rw [mem_if_singleton h6]
      · right; right; right; right; right
        rw [show e = { type := EType.tf_detach, rate := l.tf_detach_rate } by simpa using h4]

/-- C6: `collect_rates` raises the fatal "lattice cannot do anything"
error exactly when the total enumerated rate is zero; on a normal return
the total equals the exact sum of the enumerated event rates and — given
the spec's non-negative configured rates — is strictly positive. -/
theorem claim_C6_total_rate_conservation (l : Lattice)
    (h1 : 0 ≤ l.rnap_attach_rate) (h2 : 0 ≤ l.rnap_move_rate)
    (h3 : 0 ≤ l.rnap_detach_rate) (h4 : 0 ≤ l.tf_attach_rate)
    (h5 : 0 ≤ l.tf_move_rate) (h6 : 0 ≤ l.tf_detach_rate) :
    (l.collect_rates = .error .stall ↔ ((collectEvents l).map Event.rate).sum = 0) ∧
    ∀ total l', l.collect_rates = .ok (total, l') →
      total = ((collectEvents l).map Event.rate).sum ∧ 0 < total := by
  have hnn : 0 ≤ ((collectEvents l).map Event.rate).sum := by
    apply List.sum_nonneg
    intro x hx
    rcases List.mem_map.mp hx with ⟨e, he, rfl⟩
    rcases collectEvents_rate_cases l e he with h | h | h | h | h | h <;>
      rw [h] <;> assumption
  unfold Lattice.collect_rates
  dsimp only
  constructor
  · split
    next hz => simp [hz]
    next hz => simp [hz]
  · intro total l' h
    split at h
    · exact Except.noConfusion h
    next hz =>
      rw [Except.ok.injEq, Prod.mk.injEq] at h
      refine ⟨h.1.symm, ?_⟩
      rw [← h.1]
      exact lt_of_le_of_ne hnn (Ne.symm hz)

/-- Witness for C6 at the concrete state `c1_state` (rates 1, 1, 1, 0, 1,
1): the stall iff and the total-rate conservation, instantiated. -/
theorem claim_C6_witness :
    (c1_state.collect_rates = .error .stall ↔
      ((collectEvents c1_state).map Event.rate).sum = 0) ∧
    ∀ total l', c1_state.collect_rates = .ok (total, l') →
      total = ((collectEvents c1_state).map Event.rate).sum ∧ 0 < total :=
  claim_C6_total_rate_conservation c1_state
    (by norm_num [c1_state, c1_base, mkLattice, Lattice.reset])
    (by norm_num [c1_state, c1_base, mkLattice, Lattice.reset])
    (by norm_num [c1_state, c1_base, mkLattice, Lattice.reset])
    (by norm_num [c1_state, c1_base, mkLattice, Lattice.reset])
    (by norm_num [c1_state, c1_base, mkLattice, Lattice.reset])
    (by norm_num [c1_state, c1_base, mkLattice, Lattice.reset])

/-- C8: each successful `simulate_step` increments the step counter by
exactly one and adds the (non-negative) exponential waiting-time sample
to the elapsed age, and consequently over any sequence of steps both the
elapsed age and the step counter are non-decreasing. -/
theorem claim_C8_monotonicity :
    (∀ (l l' : Lattice) (u wait : ℚ) (choice : ℕ), 0 ≤ wait →
      l.simulate_step u wait choice = .ok l' →
        l'.step_count = l.step_count + 1 ∧ l'.lattice_age = l.lattice_age + wait ∧
          l.lattice_age ≤ l'.lattice_age) ∧
    (∀ (ds : List Draw) (l l' : Lattice), (∀ d ∈ ds, 0 ≤ d.wait) →
      run_steps l ds = .ok l' →
        l.lattice_age ≤ l'.lattice_age ∧ l.step_count ≤ l'.step_count) := by
  have hstep : ∀ (l l' : Lattice) (u wait : ℚ) (choice : ℕ), 0 ≤ wait →
      l.simulate_step u wait choice = .ok l' →
        l'.step_count = l.step_count + 1 ∧ l'.lattice_age = l.lattice_age + wait ∧
          l.lattice_age ≤ l'.lattice_age := by
    intro l l' u wait choice hw h
    obtain ⟨hc, -, ha⟩ := simulate_step_counts h
    exact ⟨hc, ha, by rw [ha]; linarith⟩
  refine ⟨hstep, ?_⟩
  intro ds
  induction ds with
  | nil =>
    intro l l' _ h
    rw [run_steps] at h
    rw [Except.ok.injEq] at h
    rw [h]
    exact ⟨le_rfl, le_rfl⟩
  | cons d rest ih =>
    intro l l' hw h
    rw [run_steps] at h
    split at h
    · exact Except.noConfusion h
    next l1 hs =>
      have hd := hstep l l1 d.u d.wait d.choice (hw d (by simp)) hs
      have hr := ih l1 l' (fun x hx => hw x (List.mem_cons_of_mem d hx)) h
      exact ⟨le_trans hd.2.2 hr.1, by omega⟩

/-- Witness for C8 at the concrete step `c3_placed → c3_stepped` (waiting
time 0): the counter increments by one and the age does not decrease,
both for the single step and for the one-step sequence. -/
theorem claim_C8_witness :
    (c3_stepped.step_count = c3_placed.step_count + 1 ∧
      c3_stepped.lattice_age = c3_placed.lattice_age + 0 ∧
      c3_placed.lattice_age ≤ c3_stepped.lattice_age) ∧
    (c3_placed.lattice_age ≤ c3_stepped.lattice_age ∧
      c3_placed.step_count ≤ c3_stepped.step_count) :=
  ⟨claim_C8_monotonicity.1 c3_placed c3_stepped 0 0 0 le_rfl c3_step_eq,
   claim_C8_monotonicity.2 [⟨0, 0, 0⟩] c3_placed c3_stepped
     (by intro d hd; rw [List.mem_singleton] at hd; rw [hd])
     (by simp [run_steps, c3_step_eq])⟩

end Statpyf
